import Mathlib

/-!
Verification of `gen_python_dependencies.py` (make-booster).

The script scans a Python file line by line for import statements,
resolves each imported module with the host interpreter, and prints
Makefile dependency rules to standard output; if the file declares
`INPUTS`, it additionally executes the file and prints an inputs rule.

This file gives a shallow embedding of that script.  Pure string
processing (the five compiled regular expressions, `str.strip`,
`str.rstrip`, `str.split`, slicing, `os.path.basename`) is translated
function by function from the source.  The effectful parts are made
explicit:

* `__import__` and the presence of `__file__` become an oracle
  `Env.resolve : String → Resolution`;
* the filesystem (`os.path.isfile` plus reading the file as a list of
  physical lines, each including its trailing newline when present)
  becomes `Env.fileLines : String → Option (List String)`;
* the result of executing the file and reading its `INPUTS` attribute
  (`process_inputs`) becomes `Env.inputsAttr : String → Option PyValue`;
* `REQUIRED_PATH_PREFIX = os.getcwd()` becomes `Env.root`;
* printing and `exit` become an explicit `RunResult` holding the lines
  written to standard output, the lines written to standard error, and
  the exit status.
-/

namespace GenPyDeps

/-- Python `\s` on ASCII text: the characters `str.strip()` removes and
the regex character class `\s` matches. -/
def isPySpace (c : Char) : Bool :=
  c = ' ' || c = '\t' || c = '\n' || c = '\r' || c = '\x0b' || c = '\x0c'

/-- Drop leading whitespace (the regex `\s*`, taken greedily). -/
def dropSpaces (cs : List Char) : List Char :=
  cs.dropWhile isPySpace

/-- Match a literal string at the head of the input; return the rest. -/
def stripLit : List Char → List Char → Option (List Char)
  | [], s => some s
  | _ :: _, [] => none
  | p :: ps, c :: cs => if c = p then stripLit ps cs else none

/-- Boolean membership of a character in a character list. -/
def charIn (c : Char) : List Char → Bool
  | [] => false
  | d :: ds => c = d || charIn c ds

/-- Python `str.strip()`: remove leading and trailing whitespace. -/
def pyStrip (s : String) : String :=
  String.mk (((s.data.dropWhile isPySpace).reverse.dropWhile isPySpace).reverse)

/-- Python `str.rstrip(chars)`: remove every trailing character that
belongs to the character SET `chars` (not: remove a suffix equal to
`chars`). -/
def pyRstrip (s : String) (cs : List Char) : String :=
  String.mk ((s.data.reverse.dropWhile (fun c => charIn c cs)).reverse)

/-- `os.path.basename` on a POSIX path: the part after the last slash. -/
def basename (s : String) : String :=
  String.mk ((s.data.reverse.takeWhile (fun c => c ≠ '/')).reverse)

/-- Python slicing `s[n:]`. -/
def strDrop (s : String) (n : Nat) : String :=
  String.mk (s.data.drop n)

/-- `xs` is a prefix of `ys`, as a Bool (Python `str.startswith`). -/
def listIsPfxOf : List Char → List Char → Bool
  | [], _ => true
  | _ :: _, [] => false
  | a :: as2, b :: bs => a = b && listIsPfxOf as2 bs

/-- Python `s.startswith(p)`. -/
def pyStartswith (s p : String) : Bool :=
  listIsPfxOf p.data s.data

/-- Python `s.split(',')`: split at every comma, keeping empty pieces. -/
def splitCommaGo : List Char → List Char → List String
  | [], acc => [String.mk acc.reverse]
  | c :: rest, acc =>
    if c = ',' then String.mk acc.reverse :: splitCommaGo rest []
    else splitCommaGo rest (c :: acc)

/-- Python `s.split(',')`. -/
def pySplitComma (s : String) : List String :=
  splitCommaGo s.data []

/-!
The five compiled patterns of the script:

* `IMPORT_AS_PATTERN  = \s*import\s+([^;#]+)\s+as\s`
* `IMPORT_PATTERN     = \s*import\s+([^;#]+)`
* `FROM_IMPORT_PATTERN = \s*from\s+([^\s;#]+)\s+import\s`
* `INPUTS_SET         = \s*INPUTS\s*=`
* `HAS_TESTS          = \s*def\s+test_`

Each is used through `re.match`, i.e. anchored at the start of the line
and only required to match a prefix of it.  The functions below compute
exactly the captured group (or the Boolean match result), reproducing
the greedy-with-backtracking semantics of the Python engine: the
quantifier `\s+` before the capture group backtracks from its maximal
width downwards, and inside each width the capture group `[^;#]+` is
taken as long as possible.
-/

/-- The tail `\s+as\s` of `IMPORT_AS_PATTERN`: at least one whitespace
character, then the literal `as`, then one whitespace character.  (The
inner `\s+` never needs to backtrack because `a` is not whitespace.) -/
def asTail (q : List Char) : Bool :=
  match q with
  | [] => false
  | c :: rest =>
    isPySpace c &&
      (match stripLit ['a', 's'] (dropSpaces rest) with
       | some (d :: _) => isPySpace d
       | _ => false)

/-- Longest nonempty prefix of the input consisting of characters other
than `;` and `#` such that the remaining suffix starts with `\s+as\s` —
the group captured by `([^;#]+)\s+as\s` under greedy matching. -/
def longestP : List Char → Option (List Char)
  | [] => none
  | c :: rest =>
    if c = ';' || c = '#' then none
    else
      match longestP rest with
      | some p => some (c :: p)
      | none => if asTail rest then some [c] else none

/-- Backtracking over the width of the `\s+` just before the capture
group of `IMPORT_AS_PATTERN`: `sp` is the maximal run of whitespace
after `import`, `s3` what follows it; widths are tried from `sp.length`
down to `1`. -/
def tryImportAsK : Nat → List Char → List Char → Option (List Char)
  | 0, _, _ => none
  | k + 1, sp, s3 =>
    match longestP (sp.drop (k + 1) ++ s3) with
    | some p => some p
    | none => tryImportAsK k sp s3

/-- `re.match(IMPORT_AS_PATTERN, line)`, returning the captured group. -/
def matchImportAs (line : String) : Option String :=
  match stripLit "import".data (dropSpaces line.data) with
  | none => none
  | some s2 =>
    (tryImportAsK (s2.takeWhile isPySpace).length
      (s2.takeWhile isPySpace) (s2.dropWhile isPySpace)).map String.mk

/-- Backtracking over the width of `\s+` in `IMPORT_PATTERN`; for each
width the capture `([^;#]+)` is the maximal run of characters other
than `;` and `#`, and must be nonempty. -/
def tryImportK : Nat → List Char → List Char → Option (List Char)
  | 0, _, _ => none
  | k + 1, sp, s3 =>
    let cap := (sp.drop (k + 1) ++ s3).takeWhile (fun c => !(c = ';' || c = '#'))
    if cap.isEmpty then tryImportK k sp s3 else some cap

/-- `re.match(IMPORT_PATTERN, line)`, returning the captured group. -/
def matchImport (line : String) : Option String :=
  match stripLit "import".data (dropSpaces line.data) with
  | none => none
  | some s2 =>
    (tryImportK (s2.takeWhile isPySpace).length
      (s2.takeWhile isPySpace) (s2.dropWhile isPySpace)).map String.mk

/-- `re.match(FROM_IMPORT_PATTERN, line)`, returning the captured
group.  Here the capture class `[^\s;#]` excludes whitespace, so no
backtracking can succeed: the first `\s+` must take its maximal width,
the capture is the maximal run, and the trailing `\s+import\s` must
match right after it. -/
def matchFromImport (line : String) : Option String :=
  match stripLit "from".data (dropSpaces line.data) with
  | none => none
  | some s2 =>
    match s2 with
    | [] => none
    | c :: _ =>
      if isPySpace c then
        let s3 := s2.dropWhile isPySpace
        let cap := s3.takeWhile (fun d => !(isPySpace d || d = ';' || d = '#'))
        if cap.isEmpty then none
        else
          match s3.drop cap.length with
          | [] => none
          | d :: _ =>
            if isPySpace d then
              match stripLit "import".data ((s3.drop cap.length).dropWhile isPySpace) with
              | some (e :: _) => if isPySpace e then some (String.mk cap) else none
              | _ => none
            else none
      else none

/-- `re.match(INPUTS_SET, line)` as a Boolean. -/
def matchInputsSet (line : String) : Bool :=
  match stripLit "INPUTS".data (dropSpaces line.data) with
  | none => false
  | some s2 =>
    match s2.dropWhile isPySpace with
    | '=' :: _ => true
    | _ => false

/-- `re.match(HAS_TESTS, line)` as a Boolean. -/
def matchHasTests (line : String) : Bool :=
  match stripLit "def".data (dropSpaces line.data) with
  | none => false
  | some s2 =>
    match s2 with
    | [] => false
    | c :: _ =>
      if isPySpace c then
        match stripLit "test_".data (s2.dropWhile isPySpace) with
        | some _ => true
        | none => false
      else false

/-- Outcome of `__import__(name)` together with the `__file__` check:
`notFound` models a `ModuleNotFoundError`; `builtin` models success
with no `__file__` attribute (a module built into the interpreter);
`located f` models success with `mod.__file__ = f`. -/
inductive Resolution where
  | notFound
  | builtin
  | located (modFile : String)
  deriving DecidableEq

/-- The value of a module-level `INPUTS` attribute, as the script
distinguishes it: either a single string (`isinstance(x, str)`) or a
sequence of strings. -/
inductive PyValue where
  | str (s : String)
  | list (xs : List String)
  deriving DecidableEq

/-- The ambient state a run reads: the working directory
(`REQUIRED_PATH_PREFIX = os.getcwd()`), the interpreter's module
resolution, the filesystem (per path: `none` when `os.path.isfile` is
false, otherwise the file's physical lines), and the `INPUTS` attribute
obtained by executing a path as an isolated module (`none` when
`'INPUTS' not in dir(module)`). -/
structure Env where
  root : String
  resolve : String → Resolution
  fileLines : String → Option (List String)
  inputsAttr : String → Option PyValue

/-- Observable outcome of a run: the lines printed to standard output,
the lines printed to standard error, and the exit status. -/
structure RunResult where
  out : List String
  err : List String
  exitCode : Nat
  deriving DecidableEq

/-- `generate_import_dependency(python_file, module_name, line_number)`:
strip the name, resolve it, and either abort with the error message
(`.error`), emit nothing for a builtin or out-of-tree module, or emit
the `.sc` and `.ec` rule pair for an in-tree module. -/
def generate_import_dependency (env : Env) (python_file module_nm : String)
    (line_number : Nat) : Except String (List String) :=
  let clean_name := pyStrip module_nm
  match env.resolve clean_name with
  | .notFound =>
    .error (python_file ++ ":" ++ toString line_number ++
      " - Error, module not found: " ++ clean_name)
  | .builtin => .ok []
  | .located mod_file =>
    if pyStartswith mod_file env.root then
      let dependency := strDrop mod_file (env.root.length + 1)
      .ok ["deps/" ++ python_file ++ ".sc: deps/" ++ dependency ++ ".sc",
           "deps/" ++ python_file ++ ".ec: deps/" ++ dependency ++ ".ec"]
    else .ok []

/-- The `for module_name in results[1].split(','):` loop inside
`process_imports`: call `generate_import_dependency` on each name in
order, accumulating output, stopping at the first error (which carries
the output already printed). -/
def depList (env : Env) (python_file : String) : List String → Nat →
    List String → Except (List String × String) (List String)
  | [], _, out => .ok out
  | nm :: rest, n, out =>
    match generate_import_dependency env python_file nm n with
    | .error e => .error (out, e)
    | .ok o => depList env python_file rest n (out ++ o)

/-- The scan loop of `process_imports`, over the remaining lines.
`n` is the value of `enumerate`'s counter for the head line (zero-based,
counting physical lines).  Each line first updates the `INPUTS` and
test flags, then is tried against the aliased-import, plain-import and
from-import shapes in that order, first match wins.  After the loop the
test rule is printed if the test flag was set.  An error carries the
standard-output lines printed before it. -/
def process_imports_go (env : Env) (python_file : String) :
    List String → Nat → Bool → Bool → List String →
    Except (List String × String) (List String × Bool)
  | [], _, inputsWasSet, hasTests, out =>
    .ok (out ++ (if hasTests then ["test: deps/" ++ python_file ++ ".test"] else []),
         inputsWasSet)
  | line :: rest, n, inputsWasSet, hasTests, out =>
    let i2 := inputsWasSet || matchInputsSet line
    let t2 := hasTests || matchHasTests line
    match matchImportAs line with
    | some nm =>
      match generate_import_dependency env python_file nm n with
      | .error e => .error (out, e)
      | .ok o => process_imports_go env python_file rest (n + 1) i2 t2 (out ++ o)
    | none =>
      match matchImport line with
      | some cap =>
        match depList env python_file (pySplitComma cap) n out with
        | .error e => .error e
        | .ok out2 => process_imports_go env python_file rest (n + 1) i2 t2 out2
      | none =>
        match matchFromImport line with
        | some nm =>
          match generate_import_dependency env python_file nm n with
          | .error e => .error (out, e)
          | .ok o => process_imports_go env python_file rest (n + 1) i2 t2 (out ++ o)
        | none => process_imports_go env python_file rest (n + 1) i2 t2 out

/-- `process_imports(python_file)` on the file's lines: returns the
printed rule lines and the `inputs_was_set` flag, or the error state. -/
def process_imports (env : Env) (python_file : String) (lines : List String) :
    Except (List String × String) (List String × Bool) :=
  process_imports_go env python_file lines 0 false false []

/-- `module_name = os.path.basename(python_file).rstrip('.py')` in
`process_inputs`: the name under which the file is loaded as an
isolated module. -/
def module_name (python_file : String) : String :=
  pyRstrip (basename python_file) ['.', 'p', 'y']

/-- `list(x)` when `isinstance(x, str)`, else the sequence itself: the
normalisation `process_inputs` applies to the `INPUTS` value before
joining. -/
def pyList : PyValue → List String
  | .str s => s.data.map (fun c => String.mk [c])
  | .list xs => xs

/-- `process_inputs(python_file)`: if the executed module has an
`INPUTS` attribute, print the single inputs rule; otherwise print
nothing. -/
def process_inputs (env : Env) (python_file : String) : List String :=
  match env.inputsAttr python_file with
  | none => []
  | some v =>
    ["deps/" ++ python_file ++ ".inputs: " ++ String.intercalate " " (pyList v)]

/-- `main(python_file)`: check the file exists, scan it for imports,
and if the `INPUTS` marker was seen, run `process_inputs` and print the
`.ec → .inputs` rule. -/
def main (env : Env) (python_file : String) : RunResult :=
  match env.fileLines python_file with
  | none => ⟨[], ["File does not exist: " ++ python_file], 1⟩
  | some lines =>
    match process_imports env python_file lines with
    | .error (out, e) => ⟨out, [e], 1⟩
    | .ok (out, inputsWasSet) =>
      if inputsWasSet then
        ⟨out ++ process_inputs env python_file ++
           ["deps/" ++ python_file ++ ".ec: deps/" ++ python_file ++ ".inputs"],
         [], 0⟩
      else ⟨out, [], 0⟩

/-- The `if __name__ == "__main__":` block: with an argument vector of
length other than 2 (program name plus exactly one path), print the
usage message — to standard output, the `print` has no `file=` — and
exit 1; otherwise run `main` on the single argument. -/
def runCli (env : Env) (argv : List String) : RunResult :=
  if argv.length ≠ 2 then
    ⟨[(argv.headD "") ++ ": Error: requires exactly one argument"], [], 1⟩
  else main env (argv.getD 1 "")

/-- A module reference the resolver classifies as external: either a
builtin (no `__file__`) or a module whose backing file does not start
with the project-root prefix.  `notFound` is excluded. -/
def externalRes (env : Env) (s : String) : Prop :=
  match env.resolve s with
  | .notFound => False
  | .builtin => True
  | .located mf => pyStartswith mf env.root = false

/-- A line on which none of the three import shapes matches. -/
def noImportLine (x : String) : Prop :=
  matchImportAs x = none ∧ matchImport x = none ∧ matchFromImport x = none

instance (x : String) : Decidable (noImportLine x) := by
  unfold noImportLine
  infer_instance

/-- A line that matches none of the five patterns at all. -/
def inertLine (x : String) : Prop :=
  matchImportAs x = none ∧ matchImport x = none ∧ matchFromImport x = none ∧
    matchInputsSet x = false ∧ matchHasTests x = false

instance (x : String) : Decidable (inertLine x) := by
  unfold inertLine
  infer_instance

/-! Concrete states used to instantiate the theorems. -/

/-- A run where `m.py` first imports a module that resolves inside the
project root, then one the interpreter cannot find. -/
def envC1 : Env where
  root := "/r"
  resolve := fun s => if s = "good" then .located "/r/good.py" else .notFound
  fileLines := fun p => if p = "m.py" then some ["import good\n", "import bad\n"] else none
  inputsAttr := fun _ => none

/-- The scenario of the spec: `bbb.py` contains `import ccc` and
`ccc.py` exists under the project root. -/
def envC2 : Env where
  root := "/r"
  resolve := fun s => if s = "ccc" then .located "/r/ccc.py" else .notFound
  fileLines := fun p => if p = "bbb.py" then some ["import ccc\n"] else none
  inputsAttr := fun _ => none

/-- A file that sets the `INPUTS` marker and whose executed module has
`INPUTS = ['a.txt', 'b.txt']`. -/
def envC3 : Env where
  root := "/r"
  resolve := fun _ => .builtin
  fileLines := fun p => if p = "f.py" then some ["INPUTS = compute()\n"] else none
  inputsAttr := fun p => if p = "f.py" then some (.list ["a.txt", "b.txt"]) else none

/-- A file whose scan sees the `INPUTS` marker (inside a dead branch)
but whose executed module has no `INPUTS` attribute. -/
def envC4 : Env where
  root := "/r"
  resolve := fun _ => .builtin
  fileLines := fun p => if p = "f.py" then some ["if False:\n", "    INPUTS = [1]\n"] else none
  inputsAttr := fun _ => none

/-- A state with nothing in it, for exercising the CLI guard. -/
def envTriv : Env where
  root := ""
  resolve := fun _ => .notFound
  fileLines := fun _ => none
  inputsAttr := fun _ => none

/-- A state in which every module reference resolves to a builtin, so
every import is external. -/
def envExt : Env where
  root := "/r"
  resolve := fun _ => .builtin
  fileLines := fun p => if p = "e.py" then some ["import os, sys\n"] else none
  inputsAttr := fun _ => none

/-- A file with no imports and no `INPUTS` marker but with a test
definition. -/
def envC7 : Env where
  root := "/r"
  resolve := fun _ => .notFound
  fileLines := fun p => if p = "t.py" then some ["def test_alpha():\n", "    pass\n"] else none
  inputsAttr := fun _ => none

/-- A file whose every line is inert. -/
def envC7w : Env where
  root := "/r"
  resolve := fun _ => .notFound
  fileLines := fun p => if p = "p.py" then some ["x = 1\n", "print(2)\n"] else none
  inputsAttr := fun _ => none

/-- A run whose very first physical line is an unresolvable
aliased import. -/
def envC10 : Env where
  root := "/r"
  resolve := fun _ => .notFound
  fileLines := fun p => if p = "a.py" then some ["import zmod as z\n"] else none
  inputsAttr := fun _ => none

/-- One of two equal (but not syntactically identical) ambient states. -/
def env8a : Env where
  root := "/r"
  resolve := fun s => if s = "ccc" then .located "/r/ccc.py" else .builtin
  fileLines := fun p => if p = "bbb.py" then some ["import ccc\n"] else none
  inputsAttr := fun _ => none

/-- The same ambient state as `env8a`, written differently. -/
def env8b : Env where
  root := "/" ++ "r"
  resolve := fun s => if s = "ccc" then .located "/r/ccc.py" else .builtin
  fileLines := fun p => if p = "bbb.py" then some ["import ccc\n"] else none
  inputsAttr := fun _ => none

/-! Helper lemmas. -/

theorem mk_data (l : List Char) : (String.mk l).data = l := rfl

theorem strData_append (a b : String) : (a ++ b).data = a.data ++ b.data := rfl

theorem listIsPfxOf_append (l m : List Char) : listIsPfxOf l (l ++ m) = true := by
  induction l with
  | nil => rfl
  | cons c cs ih => simp [listIsPfxOf, ih]

/-- `generate_import_dependency` on a module that resolves to a file
directly under the project root emits exactly the `.sc`/`.ec` pair. -/
theorem gen_located (env : Env) (f nm : String) (n : Nat) (dep : String)
    (h : env.resolve (pyStrip nm) = .located (env.root ++ "/" ++ dep)) :
    generate_import_dependency env f nm n =
      .ok ["deps/" ++ f ++ ".sc: deps/" ++ dep ++ ".sc",
           "deps/" ++ f ++ ".ec: deps/" ++ dep ++ ".ec"] := by
  have hd : (env.root ++ "/" ++ dep).data = (env.root.data ++ ['/']) ++ dep.data := by
    rw [strData_append, strData_append]
  have hpfx : pyStartswith (env.root ++ "/" ++ dep) env.root = true := by
    unfold pyStartswith
    rw [hd, List.append_assoc]
    exact listIsPfxOf_append env.root.data (['/'] ++ dep.data)
  have hdrop : strDrop (env.root ++ "/" ++ dep) (env.root.length + 1) = dep := by
    unfold strDrop
    rw [hd]
    have hl : env.root.length + 1 = (env.root.data ++ ['/']).length := by
      rw [List.length_append]
      rfl
    rw [hl, List.drop_left]
  simp only [generate_import_dependency, h, hpfx, if_true, hdrop]

/-- `generate_import_dependency` fails only on an unresolved name, and
then its message has the documented shape. -/
theorem gen_error_shape (env : Env) (f nm : String) (n : Nat) (e : String)
    (h : generate_import_dependency env f nm n = .error e) :
    env.resolve (pyStrip nm) = .notFound ∧
      e = f ++ ":" ++ toString n ++ " - Error, module not found: " ++ pyStrip nm := by
  unfold generate_import_dependency at h
  cases hres : env.resolve (pyStrip nm) with
  | notFound =>
    simp only [hres, Except.error.injEq] at h
    exact ⟨rfl, h.symm⟩
  | builtin =>
    simp only [hres] at h
    exact Except.noConfusion h
  | located mf =>
    simp only [hres] at h
    split at h <;> simp at h

/-- An external reference produces no dependency lines. -/
theorem gen_external (env : Env) (f nm : String) (n : Nat)
    (h : externalRes env (pyStrip nm)) :
    generate_import_dependency env f nm n = .ok [] := by
  unfold externalRes at h
  unfold generate_import_dependency
  cases hres : env.resolve (pyStrip nm) with
  | notFound => simp only [hres] at h
  | builtin => simp only [hres]
  | located mf =>
    simp only [hres] at h
    simp only [hres, h, if_false, Bool.false_eq_true]

/-- The comma loop fails only through `generate_import_dependency`. -/
theorem depList_error_shape (env : Env) (f : String) (names : List String)
    (n : Nat) (out out2 : List String) (e : String)
    (h : depList env f names n out = .error (out2, e)) :
    ∃ nm, env.resolve nm = .notFound ∧
      e = f ++ ":" ++ toString n ++ " - Error, module not found: " ++ nm := by
  induction names generalizing out with
  | nil => simp [depList] at h
  | cons nm rest ih =>
    rw [depList] at h
    cases hg : generate_import_dependency env f nm n with
    | error e2 =>
      simp only [hg, Except.error.injEq, Prod.mk.injEq] at h
      obtain ⟨h1, h2⟩ := gen_error_shape env f nm n e2 hg
      exact ⟨pyStrip nm, h1, h.2 ▸ h2⟩
    | ok o =>
      simp only [hg] at h
      exact ih _ h

/-- The comma loop succeeds untouched when every reference is
external. -/
theorem depList_external (env : Env) (f : String)
    (hext : ∀ s, externalRes env s) (names : List String) (n : Nat)
    (out : List String) : depList env f names n out = .ok out := by
  induction names generalizing out with
  | nil => rfl
  | cons nm rest ih =>
    rw [depList, gen_external env f nm n (hext _)]
    show depList env f rest n (out ++ []) = .ok out
    rw [List.append_nil]
    exact ih out

/-- The scan loop fails only with a module-not-found message. -/
theorem go_error_shape (env : Env) (f : String) (ls : List String)
    (n : Nat) (i t : Bool) (out out2 : List String) (e : String)
    (h : process_imports_go env f ls n i t out = .error (out2, e)) :
    ∃ (nm : String) (k : Nat), env.resolve nm = .notFound ∧
      e = f ++ ":" ++ toString k ++ " - Error, module not found: " ++ nm := by
  induction ls generalizing n i t out with
  | nil => simp [process_imports_go] at h
  | cons line rest ih =>
    rw [process_imports_go] at h
    cases hA : matchImportAs line with
    | some nm =>
      cases hg : generate_import_dependency env f nm n with
      | error e2 =>
        simp only [hA, hg, Except.error.injEq, Prod.mk.injEq] at h
        obtain ⟨h1, h2⟩ := gen_error_shape env f nm n e2 hg
        exact ⟨pyStrip nm, n, h1, h.2 ▸ h2⟩
      | ok o =>
        simp only [hA, hg] at h
        exact ih _ _ _ _ h
    | none =>
      cases hI : matchImport line with
      | some cap =>
        cases hd : depList env f (pySplitComma cap) n out with
        | error p =>
          simp only [hA, hI, hd, Except.error.injEq] at h
          obtain ⟨nm, h1, h2⟩ := depList_error_shape env f _ n out p.1 p.2 hd
          refine ⟨nm, n, h1, ?_⟩
          have hp : p.2 = e := by rw [h]
          rw [← hp]
          exact h2
        | ok out3 =>
          simp only [hA, hI, hd] at h
          exact ih _ _ _ _ h
      | none =>
        cases hF : matchFromImport line with
        | some nm =>
          cases hg : generate_import_dependency env f nm n with
          | error e2 =>
            simp only [hA, hI, hF, hg, Except.error.injEq, Prod.mk.injEq] at h
            obtain ⟨h1, h2⟩ := gen_error_shape env f nm n e2 hg
            exact ⟨pyStrip nm, n, h1, h.2 ▸ h2⟩
          | ok o =>
            simp only [hA, hI, hF, hg] at h
            exact ih _ _ _ _ h
        | none =>
          simp only [hA, hI, hF] at h
          exact ih _ _ _ _ h

/-- When every module reference is external, the scan loop leaves the
accumulated output untouched except for the optional test rule. -/
theorem go_external (env : Env) (f : String) (hext : ∀ s, externalRes env s) :
    ∀ (ls : List String) (n : Nat) (i t : Bool) (out : List String),
      ∃ (i2 t2 : Bool), process_imports_go env f ls n i t out =
        .ok (out ++ (if t2 then ["test: deps/" ++ f ++ ".test"] else []), i2) := by
  intro ls
  induction ls with
  | nil => intro n i t out; exact ⟨i, t, by rw [process_imports_go]⟩
  | cons line rest ih =>
    intro n i t out
    cases hA : matchImportAs line with
    | some nm =>
      obtain ⟨i2, t2, hr⟩ := ih (n + 1) (i || matchInputsSet line) (t || matchHasTests line) out
      refine ⟨i2, t2, ?_⟩
      rw [process_imports_go]
      simp only [hA, gen_external env f nm n (hext _)]
      rw [List.append_nil]
      exact hr
    | none =>
      cases hI : matchImport line with
      | some cap =>
        obtain ⟨i2, t2, hr⟩ := ih (n + 1) (i || matchInputsSet line) (t || matchHasTests line) out
        refine ⟨i2, t2, ?_⟩
        rw [process_imports_go]
        simp only [hA, hI, depList_external env f hext (pySplitComma cap) n out]
        exact hr
      | none =>
        cases hF : matchFromImport line with
        | some nm =>
          obtain ⟨i2, t2, hr⟩ := ih (n + 1) (i || matchInputsSet line) (t || matchHasTests line) out
          refine ⟨i2, t2, ?_⟩
          rw [process_imports_go]
          simp only [hA, hI, hF, gen_external env f nm n (hext _)]
          rw [List.append_nil]
          exact hr
        | none =>
          obtain ⟨i2, t2, hr⟩ := ih (n + 1) (i || matchInputsSet line) (t || matchHasTests line) out
          refine ⟨i2, t2, ?_⟩
          rw [process_imports_go]
          simp only [hA, hI, hF]
          exact hr

/-- A scan over lines matching none of the five patterns leaves the
output and both flags unchanged. -/
theorem go_inert (env : Env) (f : String) :
    ∀ (ls : List String), (∀ x ∈ ls, inertLine x) →
      ∀ (n : Nat) (i t : Bool) (out : List String),
        process_imports_go env f ls n i t out =
          .ok (out ++ (if t then ["test: deps/" ++ f ++ ".test"] else []), i) := by
  intro ls
  induction ls with
  | nil => intro _ n i t out; rw [process_imports_go]
  | cons line rest ih =>
    intro h n i t out
    obtain ⟨h1, h2, h3, h4, h5⟩ := h line (List.mem_cons_self line rest)
    rw [process_imports_go]
    simp only [h1, h2, h3, h4, h5, Bool.or_false]
    exact ih (fun x hx => h x (List.mem_cons_of_mem line hx)) (n + 1) i t out

/-- Scanning a block of import-free lines followed by an aliased
use of an unresolvable module fails, reporting the zero-based index
of that offending line (counter start `n` plus the block length) and
the output accumulated so far. -/
theorem go_error_at (env : Env) (f : String) (l : String) (rest : List String)
    (nm : String) (hm : matchImportAs l = some nm)
    (hr : env.resolve (pyStrip nm) = .notFound) :
    ∀ (pre : List String), (∀ x ∈ pre, noImportLine x) →
      ∀ (n : Nat) (i t : Bool) (out : List String),
        process_imports_go env f (pre ++ l :: rest) n i t out =
          .error (out, f ++ ":" ++ toString (n + pre.length) ++
            " - Error, module not found: " ++ pyStrip nm) := by
  intro pre
  induction pre with
  | nil =>
    intro _ n i t out
    rw [List.nil_append, process_imports_go]
    simp only [hm, generate_import_dependency, hr, Nat.add_zero]
    rfl
  | cons x pre ih =>
    intro h n i t out
    obtain ⟨h1, h2, h3⟩ := h x (List.mem_cons_self x pre)
    rw [List.cons_append, process_imports_go]
    simp only [h1, h2, h3]
    rw [ih (fun y hy => h y (List.mem_cons_of_mem x hy)) (n + 1) _ _ out]
    have harith : n + 1 + pre.length = n + (x :: pre).length := by
      simp [List.length_cons]
      omega
    rw [harith]

/-- The first element surviving `dropWhile` fails the predicate. -/
theorem dropWhile_head?_false (p : Char → Bool) (l : List Char) (c : Char)
    (h : (l.dropWhile p).head? = some c) : p c = false := by
  induction l with
  | nil => simp [List.dropWhile] at h
  | cons d ds ih =>
    rw [List.dropWhile_cons] at h
    cases hd : p d with
    | true =>
      rw [hd] at h
      simp only [if_true] at h
      exact ih h
    | false =>
      rw [hd] at h
      simp only [Bool.false_eq_true, if_false, List.head?_cons, Option.some.injEq] at h
      rw [← h]
      exact hd

/-!
The claims.
-/

/-- C1: for every import whose module reference cannot be resolved, the
run prints `<path>:<line> - Error, module not found: <name>` to the
error stream and terminates immediately with exit status 1, keeping
(not retracting) the dependency-rule lines already emitted to standard
output for earlier lines. -/
theorem c1_unresolved_import_fatal (env : Env) (f : String)
    (lines out : List String) (msg : String)
    (hf : env.fileLines f = some lines)
    (he : process_imports env f lines = .error (out, msg)) :
    main env f = ⟨out, [msg], 1⟩ ∧
      ∃ (nm : String) (k : Nat), env.resolve nm = .notFound ∧
        msg = f ++ ":" ++ toString k ++ " - Error, module not found: " ++ nm := by
  constructor
  · simp only [main, hf, he]
  · exact go_error_shape env f lines 0 false false [] out msg he

theorem c1_witness :
    main envC1 "m.py" = ⟨["deps/m.py.sc: deps/good.py.sc", "deps/m.py.ec: deps/good.py.ec"],
      ["m.py:1 - Error, module not found: bad"], 1⟩ ∧
    (∃ (nm : String) (k : Nat), envC1.resolve nm = .notFound ∧
        "m.py:1 - Error, module not found: bad" =
          "m.py" ++ ":" ++ toString k ++ " - Error, module not found: " ++ nm) :=
  c1_unresolved_import_fatal envC1 "m.py" ["import good\n", "import bad\n"]
    ["deps/m.py.sc: deps/good.py.sc", "deps/m.py.ec: deps/good.py.ec"]
    "m.py:1 - Error, module not found: bad" rfl rfl

/-- C2 (counterexample): on a file `bbb.py` importing `ccc` with
`ccc.py` under the project root, the output is not the single `.ec`
line the claim states: it is the `.sc` rule followed by the `.ec`
rule. -/
theorem c2_counterexample :
    (main envC2 "bbb.py").out ≠ ["deps/bbb.py.ec: deps/ccc.py.ec"] ∧
    (main envC2 "bbb.py").out =
      ["deps/bbb.py.sc: deps/ccc.py.sc", "deps/bbb.py.ec: deps/ccc.py.ec"] := by
  constructor
  · decide
  · rfl

/-- C2 (amended): for every in-project import the Dependency Emitter
emits exactly two dependency-rule lines, `deps/<dependent>.sc:
deps/<dependency>.sc` followed by `deps/<dependent>.ec:
deps/<dependency>.ec`; in particular the `.ec` line of the claim is
among them. -/
theorem c2_two_rules_per_import (env : Env) (f nm : String) (n : Nat) (dep : String)
    (h : env.resolve (pyStrip nm) = .located (env.root ++ "/" ++ dep)) :
    generate_import_dependency env f nm n =
      .ok ["deps/" ++ f ++ ".sc: deps/" ++ dep ++ ".sc",
           "deps/" ++ f ++ ".ec: deps/" ++ dep ++ ".ec"] :=
  gen_located env f nm n dep h

theorem c2_witness :
    generate_import_dependency envC2 "bbb.py" "ccc" 0 =
      .ok ["deps/bbb.py.sc: deps/ccc.py.sc", "deps/bbb.py.ec: deps/ccc.py.ec"] ∧
    "deps/bbb.py.ec: deps/ccc.py.ec" ∈ (main envC2 "bbb.py").out :=
  ⟨c2_two_rules_per_import envC2 "bbb.py" "ccc" 0 "ccc.py" rfl, by decide⟩

/-- C3: when the marker was set and the executed module defines
`INPUTS`, the run appends `deps/<f>.inputs: <entries joined by single
spaces>` followed by `deps/<f>.ec: deps/<f>.inputs`; a string value
contributes one entry per character, a list value its entries in
order. -/
theorem c3_inputs_rules (env : Env) (f : String) (lines out : List String)
    (v : PyValue)
    (hf : env.fileLines f = some lines)
    (hs : process_imports env f lines = .ok (out, true))
    (hv : env.inputsAttr f = some v) :
    (main env f).out = out ++
      ["deps/" ++ f ++ ".inputs: " ++ String.intercalate " " (pyList v),
       "deps/" ++ f ++ ".ec: deps/" ++ f ++ ".inputs"] ∧
    pyList (.str "ab") = ["a", "b"] ∧
    pyList (.list ["a.txt", "b.txt"]) = ["a.txt", "b.txt"] := by
  refine ⟨?_, rfl, rfl⟩
  simp only [main, hf, hs, process_inputs, hv, if_true]
  simp

theorem c3_witness :
    (main envC3 "f.py").out =
      ["deps/f.py.inputs: a.txt b.txt", "deps/f.py.ec: deps/f.py.inputs"] := by
  have h := (c3_inputs_rules envC3 "f.py" ["INPUTS = compute()\n"] []
    (.list ["a.txt", "b.txt"]) rfl rfl rfl).1
  exact h

/-- C4 (counterexample): marker seen during the scan but no `INPUTS`
attribute after execution — the claim says no inputs-related rule line
is emitted, yet the run emits `deps/f.py.ec: deps/f.py.inputs`. -/
theorem c4_counterexample :
    (main envC4 "f.py").out = ["deps/f.py.ec: deps/f.py.inputs"] ∧
    (main envC4 "f.py").out ≠ [] := by
  constructor
  · rfl
  · decide

/-- C4 (amended): when the marker was seen but the executed module has
no `INPUTS` attribute, the Data-Input Loader itself emits nothing, but
`main` still appends the rule `deps/<f>.ec: deps/<f>.inputs`. -/
theorem c4_marker_without_attr (env : Env) (f : String) (lines out : List String)
    (hf : env.fileLines f = some lines)
    (hs : process_imports env f lines = .ok (out, true))
    (hn : env.inputsAttr f = none) :
    process_inputs env f = [] ∧
    (main env f).out = out ++ ["deps/" ++ f ++ ".ec: deps/" ++ f ++ ".inputs"] := by
  constructor
  · simp only [process_inputs, hn]
  · simp only [main, hf, hs, process_inputs, hn, if_true]
    simp

theorem c4_witness :
    process_inputs envC4 "f.py" = [] ∧
    (main envC4 "f.py").out = ["deps/f.py.ec: deps/f.py.inputs"] :=
  c4_marker_without_attr envC4 "f.py" ["if False:\n", "    INPUTS = [1]\n"] [] rfl rfl rfl

/-- C5 (counterexample): with argument count ≠ 1 the usage message goes
to standard output, not to standard error: the error stream stays
empty. -/
theorem c5_counterexample :
    (runCli envTriv ["prog"]).err = [] ∧
    (runCli envTriv ["prog"]).out = ["prog: Error: requires exactly one argument"] ∧
    (runCli envTriv ["prog"]).exitCode = 1 :=
  ⟨rfl, rfl, rfl⟩

/-- C5 (amended): whenever the argument count differs from exactly one
file path, the tool exits with code 1 and writes the usage message to
standard output (nothing to standard error), emitting no dependency
rules. -/
theorem c5_usage_error_stdout (env : Env) (argv : List String)
    (h : argv.length ≠ 2) :
    runCli env argv =
      ⟨[(argv.headD "") ++ ": Error: requires exactly one argument"], [], 1⟩ := by
  unfold runCli
  rw [if_pos h]

theorem c5_witness :
    runCli envTriv ["p", "a", "b"] =
      ⟨["p: Error: requires exactly one argument"], [], 1⟩ :=
  c5_usage_error_stdout envTriv ["p", "a", "b"] (by decide)

/-- C6: an import resolving to a builtin module or to a file outside
the project root produces no dependency rule; a file whose every
reference is external produces no dependency rules at all — at most the
test-target rule. -/
theorem c6_external_no_rules (env : Env) (f : String) :
    (∀ (nm : String) (n : Nat), externalRes env (pyStrip nm) →
        generate_import_dependency env f nm n = .ok []) ∧
    (∀ lines : List String, (∀ s, externalRes env s) →
        ∃ (t i : Bool), process_imports env f lines =
          .ok ((if t then ["test: deps/" ++ f ++ ".test"] else []), i)) := by
  constructor
  · exact fun nm n h => gen_external env f nm n h
  · intro lines hext
    obtain ⟨i2, t2, hgo⟩ := go_external env f hext lines 0 false false []
    refine ⟨t2, i2, ?_⟩
    show process_imports_go env f lines 0 false false [] = _
    rw [hgo, List.nil_append]

theorem c6_witness :
    generate_import_dependency envExt "e.py" "os" 0 = .ok [] ∧
    (∃ (t i : Bool), process_imports envExt "e.py" ["import os, sys\n"] =
      .ok ((if t then ["test: deps/e.py.test"] else []), i)) :=
  ⟨(c6_external_no_rules envExt "e.py").1 "os" 0 trivial,
   (c6_external_no_rules envExt "e.py").2 ["import os, sys\n"] (fun _ => trivial)⟩

/-- C7 (counterexample): a file with no import statements and no
data-inputs marker but with a test definition yields nonempty standard
output (the test rule), against the claim that output is empty. -/
theorem c7_counterexample :
    (∀ x ∈ ["def test_alpha():\n", "    pass\n"],
        matchImportAs x = none ∧ matchImport x = none ∧
          matchFromImport x = none ∧ matchInputsSet x = false) ∧
    main envC7 "t.py" = ⟨["test: deps/t.py.test"], [], 0⟩ ∧
    (main envC7 "t.py").out ≠ [] := by
  refine ⟨by decide, rfl, by decide⟩

/-- C7 (amended): for every file containing no import statements, no
data-inputs marker and no test-definition marker, standard output is
empty and the exit code is 0. -/
theorem c7_inert_file_empty_output (env : Env) (f : String) (lines : List String)
    (hf : env.fileLines f = some lines) (h : ∀ x ∈ lines, inertLine x) :
    main env f = ⟨[], [], 0⟩ := by
  have hp : process_imports env f lines = .ok ([], false) := by
    show process_imports_go env f lines 0 false false [] = .ok ([], false)
    rw [go_inert env f lines h 0 false false []]
    rfl
  simp only [main, hf, hp]
  rfl

theorem c7_witness : main envC7w "p.py" = ⟨[], [], 0⟩ :=
  c7_inert_file_empty_output envC7w "p.py" ["x = 1\n", "print(2)\n"] rfl (by decide)

/-- C8: determinism — the observable outcome (standard output, standard
error, exit status) of a run is a function of the file path together
with the ambient state the code reads (project root, module resolution,
file contents, `INPUTS` attribute of the executed module); the code
reads no other input (no randomness, no clock), so two runs over equal
state are byte-identical with the same exit status. -/
theorem c8_deterministic (e1 e2 : Env) (f : String) (argv : List String)
    (h1 : e1.root = e2.root) (h2 : e1.resolve = e2.resolve)
    (h3 : e1.fileLines = e2.fileLines) (h4 : e1.inputsAttr = e2.inputsAttr) :
    main e1 f = main e2 f ∧ runCli e1 argv = runCli e2 argv := by
  have he : e1 = e2 := by
    cases e1
    cases e2
    simp_all
  rw [he]
  exact ⟨rfl, rfl⟩

theorem c8_witness :
    main env8a "bbb.py" = main env8b "bbb.py" ∧
    runCli env8a ["gen", "bbb.py"] = runCli env8b ["gen", "bbb.py"] :=
  c8_deterministic env8a env8b "bbb.py" ["gen", "bbb.py"] rfl rfl rfl rfl

/-- C9: the isolated module name is the file's base name with all
trailing characters from the set {'.', 'p', 'y'} removed — a
character-set strip, not removal of a `.py` extension: `happy.py` is
loaded as `ha`; in general the base name splits into the module name
followed by a suffix of set characters, and the module name never ends
in a set character. -/
theorem c9_module_name_strip :
    module_name "happy.py" = "ha" ∧
    module_name "happy.py" ≠ "happy" ∧
    (∀ f : String, ∃ t : List Char,
        (basename f).data = (module_name f).data ++ t ∧
          ∀ c ∈ t, charIn c ['.', 'p', 'y'] = true) ∧
    (∀ (f : String) (c : Char),
        (module_name f).data.getLast? = some c → charIn c ['.', 'p', 'y'] = false) := by
  refine ⟨rfl, by decide, ?_, ?_⟩
  · intro f
    refine ⟨((basename f).data.reverse.takeWhile (fun c => charIn c ['.', 'p', 'y'])).reverse,
      ?_, ?_⟩
    · simp only [module_name, pyRstrip, mk_data]
      rw [← List.reverse_append, List.takeWhile_append_dropWhile, List.reverse_reverse]
    · intro c hc
      have hc2 : c ∈ List.takeWhile (fun c => charIn c ['.', 'p', 'y'])
          (basename f).data.reverse := List.mem_reverse.mp hc
      have hc3 := List.mem_takeWhile_imp hc2
      exact hc3
  · intro f c h
    simp only [module_name, pyRstrip, mk_data] at h
    rw [List.getLast?_reverse] at h
    exact dropWhile_head?_false _ _ _ h

theorem c9_witness :
    module_name "happy.py" = "ha" ∧
    (∃ t : List Char, (basename "happy.py").data = (module_name "happy.py").data ++ t ∧
        ∀ c ∈ t, charIn c ['.', 'p', 'y'] = true) :=
  ⟨c9_module_name_strip.1, c9_module_name_strip.2.2.1 "happy.py"⟩

/-- C10: the line number in the module-not-found message is the
zero-based index of the offending physical line: after a block of
import-free lines of length `k` the error reports index `k`, and
an unresolvable import on the first physical line is reported as
line 0. -/
theorem c10_zero_based_lines (env : Env) (f : String) (pre : List String)
    (l : String) (rest : List String) (nm : String)
    (hf : env.fileLines f = some (pre ++ l :: rest))
    (hpre : ∀ x ∈ pre, noImportLine x)
    (hm : matchImportAs l = some nm)
    (hr : env.resolve (pyStrip nm) = .notFound) :
    main env f = ⟨[], [f ++ ":" ++ toString pre.length ++
      " - Error, module not found: " ++ pyStrip nm], 1⟩ := by
  have hp := go_error_at env f l rest nm hm hr pre hpre 0 false false []
  rw [Nat.zero_add] at hp
  have hp2 : process_imports env f (pre ++ l :: rest) = .error ([],
      f ++ ":" ++ toString pre.length ++ " - Error, module not found: " ++ pyStrip nm) := hp
  simp only [main, hf, hp2]

theorem c10_witness :
    main envC10 "a.py" = ⟨[], ["a.py:0 - Error, module not found: zmod"], 1⟩ :=
  c10_zero_based_lines envC10 "a.py" [] "import zmod as z\n" [] "zmod" rfl
    (fun x hx => absurd hx (List.not_mem_nil x)) rfl rfl

end GenPyDeps
